import Mathlib

/-!
Verification of the accounts-MB ledger/balance front-end logic.

Shallow embedding conventions:
* JS numbers carrying money amounts are modelled as rationals (ℚ); the
  claims under study concern signs, sums and branch structure, not
  binary floating-point rounding.
* ISO date strings (YYYY-MM-DD) compare lexicographically exactly as
  dates compare chronologically, and `new Date(s) < new Date(t)` agrees
  with that order; dates are therefore modelled as naturals with the
  usual order.
* A JS field that may be `null` is an `Option`; the empty string models
  a falsy string field where the code tests truthiness.
-/

namespace AccountsMB

/-- An account as rendered by the front end (Accounts.jsx): identifier,
name, type string, declared currency, opening balance and the
server-maintained current balance (both numbers). -/
structure Account where
  id : Nat
  name : String
  account_type : String
  default_currency : String
  opening_balance : ℚ
  current_balance : ℚ
deriving DecidableEq

/-- A category (Categories.jsx): identifier, name, and the
`category_type` string the transaction logic branches on. -/
structure Category where
  id : Nat
  name : String
  category_type : String
deriving DecidableEq

/-- A transaction record as consumed by Transactions.jsx/Dashboard.jsx.
`amount` is the stored signed amount in the transaction's currency,
`amount_pkr` the signed base-currency (PKR) amount (`none` models a
missing/null field, coalesced to 0 by `parseFloat(t.amount_pkr || 0)`),
`category_id`/`team_id` are nullable foreign keys, `counterparty` is a
string field ("" models the absent/falsy case). -/
structure Transaction where
  id : Nat
  account_id : Nat
  amount : ℚ
  amount_pkr : Option ℚ
  currency : String
  category_id : Option Nat
  team_id : Option Nat
  counterparty : String
  transaction_date : Nat
  description : String
deriving DecidableEq

/-- `parseFloat(t.amount_pkr || 0)`: the base-currency signed amount of a
transaction, with a missing field coalesced to zero. -/
def amountBase (t : Transaction) : ℚ :=
  t.amount_pkr.getD 0

/- ------------------------------------------------------------------
Transaction classifier: Balance Impact Preview, Transactions.jsx
lines 927–1020.
------------------------------------------------------------------ -/

/-- Transactions.jsx line 947: a transfer is inter-account when the
counterparty field is truthy (nonempty), is not the sentinel
`"External"`, and some account has that name
(`formData.counterparty && formData.counterparty !== 'External' &&
accounts.some(a => a.name === formData.counterparty)`). -/
def isInterAccountTransfer (accounts : List Account) (counterparty : String) : Bool :=
  (counterparty != "") && (counterparty != "External")
    && accounts.any (fun a => a.name == counterparty)

/-- Transactions.jsx lines 936–958: the signed effect (`actualAmount`)
of an entered amount on the selected account, determined by the matched
category's `category_type`:
expense → `-Math.abs(entered)`, income → `Math.abs(entered)`,
transfer → `-Math.abs(entered)` when inter-account, the entered value
as-is otherwise; any other type leaves the initial value 0. -/
def previewEffect (accounts : List Account) (counterparty : String)
    (categoryType : String) (entered : ℚ) : ℚ :=
  if categoryType = "expense" then -|entered|
  else if categoryType = "income" then |entered|
  else if categoryType = "transfer" then
    (if isInterAccountTransfer accounts counterparty then -|entered| else entered)
  else 0

/-- Transactions.jsx lines 984–1018: the paired counter-entry effect on
the counterparty account. It is produced only in the transfer branch
(`isInterAccountTransfer` is initialised false and set only there) and
only when the counterparty field is truthy; the counterparty account is
looked up by name and receives `+Math.abs(entered)`
(`receiverAmount = Math.abs(enteredAmount)`). -/
def counterEntryEffect (accounts : List Account) (counterparty : String)
    (categoryType : String) (entered : ℚ) : Option ℚ :=
  if (categoryType == "transfer") && isInterAccountTransfer accounts counterparty
      && (counterparty != "") then
    match accounts.find? (fun a => a.name == counterparty) with
    | some _ => some |entered|
    | none => none
  else none

/- ------------------------------------------------------------------
Summary totals, Transactions.jsx lines 455–472 (summary stats) and
Dashboard.jsx lines 71–101.
------------------------------------------------------------------ -/

/-- `categories.find(c => c.id === t.category_id)`: the category a
transaction's nullable category_id resolves to, if any. -/
def matchedCategory (categories : List Category) (t : Transaction) : Option Category :=
  categories.find? (fun c => some c.id == t.category_id)

/-- The matched category exists and has the given type. -/
def catTypeMatches (categories : List Category) (s : String) (t : Transaction) : Bool :=
  (matchedCategory categories t).any (fun c => c.category_type == s)

/-- Transactions.jsx lines 456–462: the reported income total — a
reduce that adds `Math.abs(parseFloat(t.amount_pkr || 0))` for each
transaction whose matched category has type income. -/
def totalIncome (categories : List Category) (ts : List Transaction) : ℚ :=
  ts.foldl (fun sum t =>
    match matchedCategory categories t with
    | some c => if c.category_type = "income" then sum + |amountBase t| else sum
    | none => sum) 0

/-- Transactions.jsx lines 464–470: the reported expense total — the
same reduce over transactions whose matched category has type
expense. -/
def totalExpenses (categories : List Category) (ts : List Transaction) : ℚ :=
  ts.foldl (fun sum t =>
    match matchedCategory categories t with
    | some c => if c.category_type = "expense" then sum + |amountBase t| else sum
    | none => sum) 0

/-- Transactions.jsx line 472: `netAmount = totalIncome - totalExpenses`. -/
def netAmount (categories : List Category) (ts : List Transaction) : ℚ :=
  totalIncome categories ts - totalExpenses categories ts

/-- Follows C4's words, for comparison with the code: the sum of
`amount_base` (signed, not absolute) over the transactions whose
matched category has type expense. -/
def claimedExpenseTotal (categories : List Category) (ts : List Transaction) : ℚ :=
  ((ts.filter (fun t => catTypeMatches categories "expense" t)).map amountBase).sum

/- ------------------------------------------------------------------
Opening balance as of a date, Transactions.jsx lines 516–527 (single
account) and 566–575 (all accounts).
------------------------------------------------------------------ -/

/-- Transactions.jsx lines 516–527: the single-account opening balance —
the selected account is looked up by id (rendering nothing when
absent), and its `opening_balance` is added to the sum of
`parseFloat(t.amount_pkr || 0)` over all transactions of that account
dated strictly before the start date. -/
def openingBalanceSingle (allTransactions : List Transaction)
    (accounts : List Account) (accountId : Nat) (startDate : Nat) : Option ℚ :=
  match accounts.find? (fun a => a.id == accountId) with
  | none => none
  | some account =>
      some (account.opening_balance
        + ((allTransactions.filter (fun t =>
              t.account_id == accountId && decide (t.transaction_date < startDate))).map
            amountBase).sum)

/-- Transactions.jsx lines 566–575: the all-accounts opening balance —
the sum of every account's `opening_balance` plus the sum of
`amount_pkr` over every transaction dated strictly before the start
date. -/
def openingBalanceAll (allTransactions : List Transaction)
    (accounts : List Account) (startDate : Nat) : ℚ :=
  (accounts.map (fun a => a.opening_balance)).sum
    + ((allTransactions.filter (fun t => decide (t.transaction_date < startDate))).map
        amountBase).sum

/-- Round half away from zero to the nearest integer. -/
def roundHalfAwayFromZero (q : ℚ) : ℤ :=
  if 0 ≤ q then ⌊q + 1/2⌋ else -⌊-q + 1/2⌋

/-- Modelled from the spec: the Currency Converter (§4.1) lives in the
Django backend, which is not under src/. `convert(amount, currency,
rateTable)` scales the amount by the rate-table entry for its currency
(rates are against the base currency PKR, whose rate is 1), rounding to
two decimal places half away from zero, and fails (none) for a currency
absent from the table. -/
def convert (amount : ℚ) (currency : String)
    (rateTable : List (String × ℚ)) : Option ℚ :=
  match rateTable.find? (fun p => p.1 == currency) with
  | some p => some ((roundHalfAwayFromZero (amount * p.2 * 100) : ℚ) / 100)
  | none => none

/-- Follows C5's words, for comparison with the code: the account's
converted opening balance plus the sum of `amount_base` over its
transactions dated strictly before the date. -/
def claimedPerAccountOpening (rateTable : List (String × ℚ))
    (allTransactions : List Transaction) (startDate : Nat)
    (a : Account) : Option ℚ :=
  (convert a.opening_balance a.default_currency rateTable).map
    (fun ob => ob
      + ((allTransactions.filter (fun t =>
            t.account_id == a.id && decide (t.transaction_date < startDate))).map
          amountBase).sum)

/- ------------------------------------------------------------------
Category type choices, Categories.jsx lines 17–20 and 193–207, and the
types distinguished by Transactions.jsx.
------------------------------------------------------------------ -/

/-- One entry of the category form's type dropdown. -/
structure CategoryTypeOption where
  value : String
  label : String
deriving DecidableEq

/-- Categories.jsx lines 17–20: the `categoryTypes` array backing the
form's Type select — income and expense only. -/
def categoryTypes : List CategoryTypeOption :=
  [⟨"income", "Income"⟩, ⟨"expense", "Expense"⟩]

/-- The three category_type values the transaction logic distinguishes:
Transactions.jsx lines 855–857 label exactly income, expense and
transfer, and lines 939–945 branch on exactly these three. -/
def recognizedCategoryTypes : List String :=
  ["income", "expense", "transfer"]

/-- Categories.jsx lines 193–207: the form's Type select draws its
options from categoryTypes, so a submitted category_type must be one of
the offered values. -/
def categoryFormAdmits (categoryType : String) : Bool :=
  categoryTypes.any (fun o => o.value == categoryType)

/- ------------------------------------------------------------------
Transaction form amount handling, Transactions.jsx lines 66–93 and
821–830.
------------------------------------------------------------------ -/

/-- Transactions.jsx lines 822–825: the amount input is a required
number input declaring `min="0"`. -/
def amountInputMin : ℚ := 0

/-- A value passes the amount input's client-side validation only when
it is at least the declared minimum. -/
def amountInputAccepts (x : ℚ) : Bool :=
  decide (amountInputMin ≤ x)

/-- Transactions.jsx line 71: opening an existing transaction for
editing populates the form amount with `Math.abs(transaction.amount)`. -/
def editFormAmount (t : Transaction) : ℚ :=
  |t.amount|

/- ------------------------------------------------------------------
Transaction list filtering, Transactions.jsx lines 163–185
(applyFilters).
------------------------------------------------------------------ -/

/-- The Transactions-page filter state (Transactions.jsx lines 17–22):
each field is a string in JS, empty when inactive; an active account or
category filter carries the parsed id and an active date bound carries
the date value. `none` models the falsy empty string. -/
structure TxFilters where
  accountId : Option Nat
  categoryId : Option Nat
  startDate : Option Nat
  endDate : Option Nat
deriving DecidableEq

/-- Transactions.jsx lines 163–185: applyFilters. Starting from the
input list, each active filter narrows it in turn with Array.filter
(which builds a new array, leaving the input unmodified): account id
equality, category id equality, `transaction_date >= startDate`,
`transaction_date <= endDate`. -/
def applyFilters (f : TxFilters) (ts : List Transaction) : List Transaction :=
  let l1 := match f.accountId with
    | some a => ts.filter (fun t => t.account_id == a)
    | none => ts
  let l2 := match f.categoryId with
    | some c => l1.filter (fun t => t.category_id == some c)
    | none => l1
  let l3 := match f.startDate with
    | some s => l2.filter (fun t => decide (s ≤ t.transaction_date))
    | none => l2
  match f.endDate with
  | some e => l3.filter (fun t => decide (t.transaction_date ≤ e))
  | none => l3

/-- One transaction satisfies every active filter: the conjunction the
claim describes (inactive filters are vacuous). -/
def txFilterMatches (f : TxFilters) (t : Transaction) : Bool :=
  (match f.accountId with
    | some a => t.account_id == a
    | none => true)
  && (match f.categoryId with
    | some c => t.category_id == some c
    | none => true)
  && (match f.startDate with
    | some s => decide (s ≤ t.transaction_date)
    | none => true)
  && (match f.endDate with
    | some e => decide (t.transaction_date ≤ e)
    | none => true)

/- ------------------------------------------------------------------
Currency formatting utilities, src/unnamed/part_000 lines 265–312.
------------------------------------------------------------------ -/

/-- A JS value flowing into the formatting utilities: a finite number,
NaN, null, or undefined. -/
inductive JsVal where
  | num (q : ℚ)
  | nan
  | nullv
  | undef
deriving DecidableEq

/-- JS global `isNaN`: coerces its argument to a number first, so
`isNaN(null)` is false (Number(null) = 0) while `isNaN(undefined)` is
true; the rationals modelling finite JS numbers are never NaN. -/
def jsIsNaN : JsVal → Bool
  | JsVal.nan => true
  | JsVal.undef => true
  | JsVal.nullv => false
  | JsVal.num _ => false

/-- `amount === null`. -/
def jsIsNull : JsVal → Bool
  | JsVal.nullv => true
  | _ => false

/-- `amount === undefined`. -/
def jsIsUndefined : JsVal → Bool
  | JsVal.undef => true
  | _ => false

/-- The guard `isNaN(amount) || amount === null || amount === undefined`
shared by formatCurrency and formatCurrencyCompact. -/
def invalidAmount (v : JsVal) : Bool :=
  jsIsNaN v || jsIsNull v || jsIsUndefined v

/-- `currency === 'USD' ? '$' : 'Rs.'`. -/
def currencySymbol (currency : String) : String :=
  if currency = "USD" then "$" else "Rs."

/-- Left-pad a digit string with zeros to width `w`. -/
def padZeros (s : String) (w : Nat) : String :=
  String.mk (List.replicate (w - s.length) '0') ++ s

/-- `Number.prototype.toFixed`: fixed-point rendering with `digits`
decimal places, rounding half away from zero. -/
def ratToFixed (q : ℚ) (digits : Nat) : String :=
  let p : ℚ := (10 : ℚ) ^ digits
  let n : ℤ := if 0 ≤ q then ⌊q * p + 1/2⌋ else -⌊-(q * p) + 1/2⌋
  let m : Nat := n.natAbs
  let sign := if n < 0 then "-" else ""
  let ip := m / 10 ^ digits
  let fp := m % 10 ^ digits
  if digits = 0 then sign ++ toString ip
  else sign ++ toString ip ++ "." ++ padZeros (toString fp) digits

/-- Models the successful `Intl.NumberFormat(locale, ...).format(q)`
call in formatCurrency (part_000 lines 277–282): the currency symbol
followed by a two-decimal rendering. Locale digit grouping is
abstracted; no claim under study depends on the valid-number output. -/
def intlCurrencyFormat (_locale currencyCode : String) (q : ℚ) : String :=
  (if currencyCode = "USD" then "$" else "Rs.") ++ ratToFixed q 2

/-- part_000 lines 265–288: formatCurrency. Invalid amounts (NaN, null,
undefined) short-circuit to the symbol followed by "0.00"; a finite
number is rendered through Intl with the locale and currency code
chosen by the currency argument. The JS try/catch fallback never fires
in the model, which makes the function total (it never throws). -/
def formatCurrency (amount : JsVal) (currency : String) : String :=
  if invalidAmount amount then currencySymbol currency ++ "0.00"
  else
    match amount with
    | JsVal.num q =>
        intlCurrencyFormat (if currency = "USD" then "en-US" else "en-PK")
          (if currency = "USD" then "USD" else "PKR") q
    | _ => currencySymbol currency ++ "0.00"

/-- part_000 lines 291–312: formatCurrencyCompact. Invalid amounts
short-circuit to the symbol followed by "0"; finite numbers are scaled
to Cr/L/K units by magnitude. Total by construction. -/
def formatCurrencyCompact (amount : JsVal) (currency : String) : String :=
  if invalidAmount amount then currencySymbol currency ++ "0"
  else
    match amount with
    | JsVal.num q =>
        let absAmount := |q|
        let symbol := currencySymbol currency
        let sign := if q < 0 then "-" else ""
        if 10000000 ≤ absAmount then
          sign ++ symbol ++ ratToFixed (absAmount / 10000000) 1 ++ "Cr"
        else if 100000 ≤ absAmount then
          sign ++ symbol ++ ratToFixed (absAmount / 100000) 1 ++ "L"
        else if 1000 ≤ absAmount then
          sign ++ symbol ++ ratToFixed (absAmount / 1000) 1 ++ "K"
        else sign ++ symbol ++ ratToFixed absAmount 0
    | _ => currencySymbol currency ++ "0"

/- ------------------------------------------------------------------
Dashboard filter state machine, src/unnamed/part_000 lines 5–87
(DashboardFilter component).
------------------------------------------------------------------ -/

/-- The DashboardFilter state (part_000 lines 5–12): all fields are the
strings held by the controlled inputs; empty string means unset. -/
structure DashboardFilters where
  startDate : String
  endDate : String
  accountId : String
  teamId : String
  categoryId : String
  timeRange : String
deriving DecidableEq

/-- One named date range; `stop` embeds the JS field `end`. -/
structure DateRange where
  start : String
  stop : String
deriving DecidableEq

/-- The result of getTimeRangeOptions (part_000 lines 15–42): computed
bounds for the four named ranges (their values depend on the current
clock, so they are data here, not recomputed). -/
structure TimeRangeOptions where
  thisMonth : DateRange
  lastMonth : DateRange
  thisYear : DateRange
  lastYear : DateRange
deriving DecidableEq

/-- The JS property lookup `ranges[timeRange]` on the object returned
by getTimeRangeOptions: defined for the four named keys, undefined
(none) otherwise. -/
def rangesLookup (r : TimeRangeOptions) (key : String) : Option DateRange :=
  if key = "thisMonth" then some r.thisMonth
  else if key = "lastMonth" then some r.lastMonth
  else if key = "thisYear" then some r.thisYear
  else if key = "lastYear" then some r.lastYear
  else none

/-- part_000 lines 44–59: handleTimeRangeChange. Stores the selected
timeRange; "all" clears both dates, "custom" keeps them, a named range
installs its computed bounds. -/
def handleTimeRangeChange (ranges : TimeRangeOptions) (timeRange : String)
    (filters : DashboardFilters) : DashboardFilters :=
  let nf := { filters with timeRange := timeRange }
  if timeRange = "all" then { nf with startDate := "", endDate := "" }
  else if timeRange = "custom" then nf
  else
    match rangesLookup ranges timeRange with
    | some r => { nf with startDate := r.start, endDate := r.stop }
    | none => nf

/-- The computed-property update `{ ...filters, [field]: value }` for
the five fields the component passes to handleFilterChange. -/
def setFilterField (filters : DashboardFilters) (field value : String) :
    DashboardFilters :=
  if field = "startDate" then { filters with startDate := value }
  else if field = "endDate" then { filters with endDate := value }
  else if field = "accountId" then { filters with accountId := value }
  else if field = "teamId" then { filters with teamId := value }
  else if field = "categoryId" then { filters with categoryId := value }
  else filters

/-- part_000 lines 61–70: handleFilterChange. Sets the field, and a
manual change of startDate or endDate forces timeRange to "custom". -/
def handleFilterChange (field value : String) (filters : DashboardFilters) :
    DashboardFilters :=
  let nf := setFilterField filters field value
  if field = "startDate" || field = "endDate" then { nf with timeRange := "custom" }
  else nf

end AccountsMB

namespace AccountsMB

/-- C1: for an income-category transaction the signed effect on its own
account is +entered amount, and for an expense-category transaction it
is −entered amount, whenever the entered amount is non-negative. -/
theorem income_expense_signed_effect (accounts : List Account) (cp : String)
    (e : ℚ) (h : 0 ≤ e) :
    previewEffect accounts cp "income" e = e
      ∧ previewEffect accounts cp "expense" e = -e := by
  unfold previewEffect
  rw [if_neg (by decide), if_pos rfl, if_pos rfl, abs_of_nonneg h]
  exact ⟨rfl, rfl⟩

/-- Witness for C1 at entered amount 5. -/
theorem income_expense_signed_effect_witness :
    0 ≤ (5 : ℚ)
      ∧ (previewEffect [] "" "income" 5 = 5
          ∧ previewEffect [] "" "expense" 5 = -5) :=
  ⟨by norm_num, income_expense_signed_effect [] "" 5 (by norm_num)⟩

/-- C2: for a transfer whose counterparty resolves to a known account,
the effect on the source account is −entered amount and a paired
counter-entry of +entered amount is produced on the counterparty
account, whenever the entered amount is non-negative. -/
theorem transfer_known_counterparty_effect (accounts : List Account) (cp : String)
    (e : ℚ) (h : 0 ≤ e) (hic : isInterAccountTransfer accounts cp = true) :
    previewEffect accounts cp "transfer" e = -e
      ∧ counterEntryEffect accounts cp "transfer" e = some e := by
  have hcomp := hic
  simp only [isInterAccountTransfer, Bool.and_eq_true] at hcomp
  obtain ⟨⟨hne, _⟩, hany⟩ := hcomp
  constructor
  · unfold previewEffect
    rw [if_neg (by decide), if_neg (by decide), if_pos rfl, if_pos hic,
      abs_of_nonneg h]
  · unfold counterEntryEffect
    rw [if_pos (by simp [hic, hne])]
    obtain ⟨a, ha, hpa⟩ := List.any_eq_true.mp hany
    cases hfind : accounts.find? (fun a => a.name == cp) with
    | none =>
        exact absurd hpa (by simpa using List.find?_eq_none.mp hfind a ha)
    | some b =>
        simp [abs_of_nonneg h]

/-- Witness for C2: one account named Savings, counterparty Savings,
entered amount 7. -/
theorem transfer_known_counterparty_effect_witness :
    0 ≤ (7 : ℚ)
      ∧ isInterAccountTransfer
          [⟨1, "Savings", "asset", "PKR", 0, 0⟩] "Savings" = true
      ∧ (previewEffect [⟨1, "Savings", "asset", "PKR", 0, 0⟩] "Savings" "transfer" 7 = -7
          ∧ counterEntryEffect [⟨1, "Savings", "asset", "PKR", 0, 0⟩] "Savings" "transfer" 7
              = some 7) :=
  ⟨by norm_num, by decide,
    transfer_known_counterparty_effect [⟨1, "Savings", "asset", "PKR", 0, 0⟩]
      "Savings" 7 (by norm_num) (by decide)⟩

/-- C3: for a transfer whose counterparty is absent (falsy) or the
sentinel "External", the effect on the account is the signed value
exactly as entered, and no counter-entry is produced. -/
theorem transfer_external_effect (accounts : List Account) (cp : String)
    (e : ℚ) (h : cp = "" ∨ cp = "External") :
    previewEffect accounts cp "transfer" e = e
      ∧ counterEntryEffect accounts cp "transfer" e = none := by
  have hic : isInterAccountTransfer accounts cp = false := by
    rcases h with h | h <;> simp [isInterAccountTransfer, h]
  constructor
  · unfold previewEffect
    rw [if_neg (by decide), if_neg (by decide), if_pos rfl, if_neg (by simp [hic])]
  · unfold counterEntryEffect
    rw [if_neg (by simp [hic])]

/-- Witness for C3 at counterparty "External" and entered amount −4,
showing the user-controlled sign passes through unchanged. -/
theorem transfer_external_effect_witness :
    (("External" : String) = "" ∨ ("External" : String) = "External")
      ∧ (previewEffect [⟨1, "Savings", "asset", "PKR", 0, 0⟩] "External" "transfer" (-4) = -4
          ∧ counterEntryEffect [⟨1, "Savings", "asset", "PKR", 0, 0⟩] "External" "transfer" (-4)
              = none) :=
  ⟨Or.inr rfl,
    transfer_external_effect [⟨1, "Savings", "asset", "PKR", 0, 0⟩] "External" (-4)
      (Or.inr rfl)⟩

/-- C9: applyFilters returns exactly the transactions satisfying every
active filter (account id equality, category id equality, and the
inclusive date range), as a sublist of the input — so the input order
is preserved — and, being built from Array.filter alone, it leaves the
input list unmodified. -/
theorem apply_filters_exact (f : TxFilters) (ts : List Transaction) :
    applyFilters f ts = ts.filter (fun t => txFilterMatches f t)
      ∧ (applyFilters f ts).Sublist ts
      ∧ ∀ t, t ∈ applyFilters f ts ↔ t ∈ ts ∧ txFilterMatches f t = true := by
  have key : applyFilters f ts = ts.filter (fun t => txFilterMatches f t) := by
    obtain ⟨oa, oc, os, oe⟩ := f
    cases oa <;> cases oc <;> cases os <;> cases oe <;>
      simp [applyFilters, txFilterMatches, Bool.and_assoc, Bool.and_comm,
        Bool.and_left_comm]
  refine ⟨key, ?_, ?_⟩
  · rw [key]; exact List.filter_sublist ts
  · intro t; rw [key]; simp [List.mem_filter]

/-- C8: for a NaN, null or undefined amount and any currency,
formatCurrency returns the currency symbol followed by "0.00" and
formatCurrencyCompact returns the currency symbol followed by "0";
both functions are total, so neither throws. -/
theorem format_currency_invalid_amount_zero (currency : String) :
    formatCurrency JsVal.nan currency = currencySymbol currency ++ "0.00"
      ∧ formatCurrency JsVal.nullv currency = currencySymbol currency ++ "0.00"
      ∧ formatCurrency JsVal.undef currency = currencySymbol currency ++ "0.00"
      ∧ formatCurrencyCompact JsVal.nan currency = currencySymbol currency ++ "0"
      ∧ formatCurrencyCompact JsVal.nullv currency = currencySymbol currency ++ "0"
      ∧ formatCurrencyCompact JsVal.undef currency = currencySymbol currency ++ "0" :=
  ⟨rfl, rfl, rfl, rfl, rfl, rfl⟩

/-- C10: a manual change to startDate or endDate stores the value and
sets timeRange to "custom"; selecting "all" stores that choice and
clears both dates; selecting a named range (thisMonth, lastMonth,
thisYear, lastYear) stores it and installs that range's computed
bounds as both dates. -/
theorem dashboard_filter_state_transitions (ranges : TimeRangeOptions)
    (f : DashboardFilters) (v : String) :
    ((handleFilterChange "startDate" v f).timeRange = "custom"
        ∧ (handleFilterChange "startDate" v f).startDate = v
        ∧ (handleFilterChange "endDate" v f).timeRange = "custom"
        ∧ (handleFilterChange "endDate" v f).endDate = v)
      ∧ ((handleTimeRangeChange ranges "all" f).timeRange = "all"
          ∧ (handleTimeRangeChange ranges "all" f).startDate = ""
          ∧ (handleTimeRangeChange ranges "all" f).endDate = "")
      ∧ ((handleTimeRangeChange ranges "thisMonth" f).timeRange = "thisMonth"
          ∧ (handleTimeRangeChange ranges "thisMonth" f).startDate = ranges.thisMonth.start
          ∧ (handleTimeRangeChange ranges "thisMonth" f).endDate = ranges.thisMonth.stop)
      ∧ ((handleTimeRangeChange ranges "lastMonth" f).timeRange = "lastMonth"
          ∧ (handleTimeRangeChange ranges "lastMonth" f).startDate = ranges.lastMonth.start
          ∧ (handleTimeRangeChange ranges "lastMonth" f).endDate = ranges.lastMonth.stop)
      ∧ ((handleTimeRangeChange ranges "thisYear" f).timeRange = "thisYear"
          ∧ (handleTimeRangeChange ranges "thisYear" f).startDate = ranges.thisYear.start
          ∧ (handleTimeRangeChange ranges "thisYear" f).endDate = ranges.thisYear.stop)
      ∧ ((handleTimeRangeChange ranges "lastYear" f).timeRange = "lastYear"
          ∧ (handleTimeRangeChange ranges "lastYear" f).startDate = ranges.lastYear.start
          ∧ (handleTimeRangeChange ranges "lastYear" f).endDate = ranges.lastYear.stop) :=
  ⟨⟨rfl, rfl, rfl, rfl⟩, ⟨rfl, rfl, rfl⟩, ⟨rfl, rfl, rfl⟩, ⟨rfl, rfl, rfl⟩,
    ⟨rfl, rfl, rfl⟩, ⟨rfl, rfl, rfl⟩⟩

/-- The summary-stat reduce with a generalized accumulator equals the
accumulator plus the sum of absolute base amounts over the
type-matching transactions. -/
theorem foldl_type_sum (categories : List Category) (s : String) :
    ∀ (ts : List Transaction) (init : ℚ),
      ts.foldl (fun sum t =>
        match matchedCategory categories t with
        | some c => if c.category_type = s then sum + |amountBase t| else sum
        | none => sum) init
      = init + ((ts.filter (fun t => catTypeMatches categories s t)).map
          (fun t => |amountBase t|)).sum := by
  intro ts
  induction ts with
  | nil => intro init; simp
  | cons t ts ih =>
      intro init
      rw [List.foldl_cons]
      cases h : matchedCategory categories t with
      | none =>
          have hm : catTypeMatches categories s t = false := by
            simp [catTypeMatches, h]
          simp only [h]
          rw [ih, List.filter_cons_of_neg (by simp [hm])]
      | some c =>
          by_cases hc : c.category_type = s
          · have hm : catTypeMatches categories s t = true := by
              simp [catTypeMatches, h, hc]
            simp only [h, if_pos hc]
            rw [ih, List.filter_cons_of_pos (by simp [hm]), List.map_cons,
              List.sum_cons]
            ring
          · have hm : catTypeMatches categories s t = false := by
              simp [catTypeMatches, h, hc]
            simp only [h, if_neg hc]
            rw [ih, List.filter_cons_of_neg (by simp [hm])]

/-- C4 counterexample: for one expense-category transaction whose
signed base amount is −200, the code reports an expense total of +200
while the claimed signed sum of amount_base is −200, so the reported
expense total is not the sum of amount_base. -/
theorem totals_signed_sum_counterexample :
    totalExpenses [⟨1, "Rent", "expense"⟩]
        [⟨1, 1, -200, some (-200), "PKR", some 1, none, "", 0, ""⟩] = 200
      ∧ claimedExpenseTotal [⟨1, "Rent", "expense"⟩]
          [⟨1, 1, -200, some (-200), "PKR", some 1, none, "", 0, ""⟩] = -200
      ∧ totalExpenses [⟨1, "Rent", "expense"⟩]
            [⟨1, 1, -200, some (-200), "PKR", some 1, none, "", 0, ""⟩]
          ≠ claimedExpenseTotal [⟨1, "Rent", "expense"⟩]
              [⟨1, 1, -200, some (-200), "PKR", some 1, none, "", 0, ""⟩] := by
  have habs : |(-200 : ℚ)| = 200 := by
    rw [abs_of_nonpos] <;> norm_num
  have h1 : totalExpenses [⟨1, "Rent", "expense"⟩]
      [⟨1, 1, -200, some (-200), "PKR", some 1, none, "", 0, ""⟩] = 200 := by
    simp [totalExpenses, matchedCategory, amountBase, List.find?, habs]
  have h2 : claimedExpenseTotal [⟨1, "Rent", "expense"⟩]
      [⟨1, 1, -200, some (-200), "PKR", some 1, none, "", 0, ""⟩] = -200 := by
    simp [claimedExpenseTotal, catTypeMatches, matchedCategory, amountBase,
      List.find?, List.filter]
  refine ⟨h1, h2, ?_⟩
  rw [h1, h2]
  norm_num

/-- C4 (amended): over any selected collection of transactions, the
reported income total is the sum of the absolute values of amount_base
over transactions whose matched category has type income, the expense
total is the corresponding sum for type expense, net equals income
minus expense, and a transaction with no category, an unknown
category, or a category of any other type (such as transfer)
contributes to neither total. -/
theorem totals_abs_partition (categories : List Category) (ts : List Transaction) :
    totalIncome categories ts
        = ((ts.filter (fun t => catTypeMatches categories "income" t)).map
            (fun t => |amountBase t|)).sum
      ∧ totalExpenses categories ts
        = ((ts.filter (fun t => catTypeMatches categories "expense" t)).map
            (fun t => |amountBase t|)).sum
      ∧ netAmount categories ts
          = totalIncome categories ts - totalExpenses categories ts
      ∧ ∀ t : Transaction,
          (matchedCategory categories t = none
            ∨ ∃ c, matchedCategory categories t = some c
                ∧ c.category_type ≠ "income" ∧ c.category_type ≠ "expense") →
          totalIncome categories [t] = 0 ∧ totalExpenses categories [t] = 0 := by
  refine ⟨?_, ?_, rfl, ?_⟩
  · simpa [totalIncome] using foldl_type_sum categories "income" ts 0
  · simpa [totalExpenses] using foldl_type_sum categories "expense" ts 0
  · intro t ht
    rcases ht with h | ⟨c, hc, hci, hce⟩
    · constructor <;> simp [totalIncome, totalExpenses, h]
    · constructor <;> simp [totalIncome, totalExpenses, hc, hci, hce]

/-- Witness for C4 (amended) at a transfer-category transaction, which
contributes to neither total. -/
theorem totals_abs_partition_witness :
    (matchedCategory [⟨1, "Move", "transfer"⟩]
          ⟨1, 1, 50, some 50, "PKR", some 1, none, "", 0, ""⟩
        = some ⟨1, "Move", "transfer"⟩
        ∧ ("transfer" : String) ≠ "income" ∧ ("transfer" : String) ≠ "expense")
      ∧ (totalIncome [⟨1, "Move", "transfer"⟩]
            [⟨1, 1, 50, some 50, "PKR", some 1, none, "", 0, ""⟩] = 0
          ∧ totalExpenses [⟨1, "Move", "transfer"⟩]
              [⟨1, 1, 50, some 50, "PKR", some 1, none, "", 0, ""⟩] = 0) :=
  ⟨⟨by decide, by decide, by decide⟩,
    (totals_abs_partition [⟨1, "Move", "transfer"⟩]
        [⟨1, 1, 50, some 50, "PKR", some 1, none, "", 0, ""⟩]).2.2.2
      ⟨1, 1, 50, some 50, "PKR", some 1, none, "", 0, ""⟩
      (Or.inr ⟨⟨1, "Move", "transfer"⟩, by decide, by decide, by decide⟩)⟩

/-- C5: at a USD account with opening balance 100 and exchange rate 280
PKR per USD, both opening-balance paths report the raw stored figure
(100) while the claim's converted opening balance is 28000 — the front
end adds the stored opening_balance unconverted into its PKR sums, so
the code diverges from the claim for any non-PKR account. -/
theorem opening_balance_unconverted_bug :
    openingBalanceSingle [] [⟨1, "A", "asset", "USD", 100, 0⟩] 1 5 = some 100
      ∧ openingBalanceAll [] [⟨1, "A", "asset", "USD", 100, 0⟩] 5 = 100
      ∧ claimedPerAccountOpening [("PKR", 1), ("USD", 280)] [] 5
          ⟨1, "A", "asset", "USD", 100, 0⟩ = some 28000
      ∧ openingBalanceSingle [] [⟨1, "A", "asset", "USD", 100, 0⟩] 1 5
          ≠ claimedPerAccountOpening [("PKR", 1), ("USD", 280)] [] 5
              ⟨1, "A", "asset", "USD", 100, 0⟩ := by
  have hb : (("PKR" : String) == "USD") = false := rfl
  refine ⟨?_, ?_, ?_, ?_⟩ <;>
    norm_num [openingBalanceSingle, openingBalanceAll, claimedPerAccountOpening,
      convert, roundHalfAwayFromZero, List.find?, hb]

/-- C6 counterexample: transfer is one of the three recognized category
types, yet the category form does not offer it, so not every
recognized type is an admissible choice when creating or editing a
category. -/
theorem category_transfer_not_offered :
    ("transfer" ∈ recognizedCategoryTypes)
      ∧ categoryFormAdmits "transfer" = false := by
  decide

/-- C6 (amended): every category type admissible in the category form
is one of the three recognized values, but the admissible choices are
exactly income and expense — transfer is recognized by the transaction
logic yet not offered when a category is created or edited. -/
theorem category_types_income_expense (ct : String)
    (h : categoryFormAdmits ct = true) :
    ct ∈ recognizedCategoryTypes
      ∧ categoryTypes.map CategoryTypeOption.value = ["income", "expense"]
      ∧ categoryFormAdmits "transfer" = false := by
  refine ⟨?_, rfl, rfl⟩
  have h2 : "income" = ct ∨ "expense" = ct := by
    simpa [categoryFormAdmits, categoryTypes] using h
  rcases h2 with rfl | rfl <;> decide

/-- Witness for C6 (amended) at the admissible choice income. -/
theorem category_types_income_expense_witness :
    categoryFormAdmits "income" = true
      ∧ ("income" ∈ recognizedCategoryTypes
          ∧ categoryTypes.map CategoryTypeOption.value = ["income", "expense"]
          ∧ categoryFormAdmits "transfer" = false) :=
  ⟨rfl, category_types_income_expense "income" rfl⟩

/-- C7: the transaction form's amount input accepts only values ≥ 0,
and loading an existing transaction for editing presents the absolute
value of its stored signed amount, which the input therefore accepts. -/
theorem transaction_intent_amount_nonneg :
    (∀ x : ℚ, amountInputAccepts x = true → 0 ≤ x)
      ∧ ∀ t : Transaction,
          editFormAmount t = |t.amount|
            ∧ 0 ≤ editFormAmount t
            ∧ amountInputAccepts (editFormAmount t) = true := by
  constructor
  · intro x hx
    simpa [amountInputAccepts, amountInputMin] using hx
  · intro t
    refine ⟨rfl, abs_nonneg _, ?_⟩
    simp [amountInputAccepts, amountInputMin, editFormAmount, abs_nonneg]

/-- Witness for C7 at the accepted amount 2. -/
theorem transaction_intent_amount_nonneg_witness :
    amountInputAccepts 2 = true ∧ 0 ≤ (2 : ℚ) :=
  ⟨by decide, transaction_intent_amount_nonneg.1 2 (by decide)⟩

end AccountsMB
